import Mathlib

/-!
Shallow embedding of the weewx-digiwx driver (src/bin/user/digiwx.py) and
proofs about its specification claims.

Conventions of the embedding:
* Python exceptions are modelled by the `Except PyErr` monad; a Python
  function that can raise returns `Except PyErr α`.
* Python `None`-or-number values are `Option`.
* Python floats are modelled as exact rationals (`Rat`); every float literal
  occurring in the claims is an exact decimal, so no rounding behaviour is
  involved.
* Python dictionaries with the fixed key set produced by `parse_current`
  are modelled by the structure `Data`, together with `Data.get` /
  `Data.getItem` modelling `dict.get` (missing key gives `None`) and
  `dict[k]` (missing key raises `KeyError`).
-/

namespace Digiwx

/-- The Python exception kinds named by digiwx.py's own code: the ones its
statements can raise, plus `weewx.RetriesExceeded`, which the source
mentions in a `raise` statement. -/
inductive PyErr where
  | indexError
  | keyError (k : String)
  | nameError (n : String)
  | attributeError (a : String)
  | retriesExceeded (msg : String)
  deriving DecidableEq, Repr

instance instDecidableEqExcept {ε α : Type} [DecidableEq ε] [DecidableEq α] :
    DecidableEq (Except ε α) := fun a b =>
  match a, b with
  | .ok x, .ok y =>
      if h : x = y then .isTrue (by rw [h])
      else .isFalse (fun hc => by cases hc; exact h rfl)
  | .error x, .error y =>
      if h : x = y then .isTrue (by rw [h])
      else .isFalse (fun hc => by cases hc; exact h rfl)
  | .ok _, .error _ => .isFalse (fun hc => by cases hc)
  | .error _, .ok _ => .isFalse (fun hc => by cases hc)

/-- Model of Python sequence indexing `l[i]` for a non-negative literal
index: out of range raises `IndexError`. -/
def pyIndex {α : Type} (l : List α) (i : Nat) : Except PyErr α :=
  match l.get? i with
  | some x => .ok x
  | none => .error .indexError

/-- Numeric value of a list of decimal digit characters. -/
def natOfDigits (cs : List Char) : Nat :=
  cs.foldl (fun a c => a * 10 + (c.toNat - 48)) 0

/-- The characters Python's `str.strip()` and numeric constructors treat as
whitespace (ASCII range). -/
def isPySpace (c : Char) : Bool :=
  c = ' ' ∨ c = '\t' ∨ c = '\n' ∨ c = '\r' ∨ c = '\x0b' ∨ c = '\x0c'

/-- Leading and trailing whitespace stripped, as Python's numeric
constructors do before parsing. -/
def pyStrip (s : String) : List Char :=
  ((s.toList.dropWhile isPySpace).reverse.dropWhile isPySpace).reverse

/-- Model of Python's `s.split(',')`: split at every comma, keeping empty
pieces; an input without commas yields the one-element list `[s]`. -/
def splitCommaAux : List Char → List Char → List String
  | [], acc => [String.mk acc.reverse]
  | c :: rest, acc =>
      if c = ',' then String.mk acc.reverse :: splitCommaAux rest []
      else splitCommaAux rest (c :: acc)

/-- `s.split(',')`. -/
def pySplitComma (s : String) : List String :=
  splitCommaAux s.toList []

/-- Model of Python's builtin `int(s)` on a string: optional surrounding
whitespace, an optional sign, then a nonempty run of decimal digits;
anything else raises `ValueError` (here: `none`).  (Digit-group
underscores and non-ASCII digits, which never occur in this protocol, are
outside the model.) -/
def pyInt (s : String) : Option Int :=
  match pyStrip s with
  | '+' :: rest =>
      if rest ≠ [] ∧ rest.all Char.isDigit then some (natOfDigits rest) else none
  | '-' :: rest =>
      if rest ≠ [] ∧ rest.all Char.isDigit then some (-(natOfDigits rest : Int)) else none
  | rest =>
      if rest ≠ [] ∧ rest.all Char.isDigit then some (natOfDigits rest) else none

/-- Exponent part of a float literal: `[+|-]digits`, consuming the whole rest. -/
def pyFloatExp (cs : List Char) : Option Int :=
  match cs with
  | '+' :: rest =>
      if rest ≠ [] ∧ rest.all Char.isDigit then some (natOfDigits rest) else none
  | '-' :: rest =>
      if rest ≠ [] ∧ rest.all Char.isDigit then some (-(natOfDigits rest : Int)) else none
  | rest =>
      if rest ≠ [] ∧ rest.all Char.isDigit then some (natOfDigits rest) else none

/-- Unsigned part of a float literal: `digits[.digits][exp]`, `.digits[exp]`
or `digits exp`, with at least one digit in the mantissa. -/
def pyFloatBody (cs : List Char) : Option Rat :=
  let ip := cs.takeWhile Char.isDigit
  let rest := cs.dropWhile Char.isDigit
  match rest with
  | [] => if ip = [] then none else some (natOfDigits ip : Rat)
  | '.' :: rest2 =>
      let fp := rest2.takeWhile Char.isDigit
      let rest3 := rest2.dropWhile Char.isDigit
      if ip = [] ∧ fp = [] then none
      else
        let base : Rat := (natOfDigits ip : Rat) + (natOfDigits fp : Rat) / (10 ^ fp.length)
        match rest3 with
        | [] => some base
        | e :: rest4 =>
            if e = 'e' ∨ e = 'E' then (pyFloatExp rest4).map (fun k => base * 10 ^ k)
            else none
  | e :: rest2 =>
      if (e = 'e' ∨ e = 'E') ∧ ip ≠ [] then
        (pyFloatExp rest2).map (fun k => (natOfDigits ip : Rat) * 10 ^ k)
      else none

/-- Model of Python's builtin `float(s)` on a string: optional surrounding
whitespace, optional sign, then a finite decimal literal with optional
exponent; anything else raises `ValueError` (here: `none`).  (The
`inf`/`nan` spellings, which never occur in this protocol, are outside the
model.) -/
def pyFloat (s : String) : Option Rat :=
  match pyStrip s with
  | '+' :: rest => pyFloatBody rest
  | '-' :: rest => (pyFloatBody rest).map (fun q => -q)
  | rest => pyFloatBody rest

/-- `DigiWXStation.parse_int`: `int(s)`, with `ValueError` caught and
turned into `None`.  Total. -/
def parse_int (s : String) : Option Int := pyInt s

/-- `DigiWXStation.parse_float`: `float(s)`, with `ValueError` caught and
turned into `None`.  Total. -/
def parse_float (s : String) : Option Rat := pyFloat s

/-- The dictionary built by `DigiWXStation.parse_current`: exactly the six
keys `temperature`, `dewpoint`, `humidity`, `wind_dir`, `wind_speed`,
`pressure`, each holding a number or `None`. -/
structure Data where
  temperature : Option Int
  dewpoint : Option Int
  humidity : Option Int
  wind_dir : Option Int
  wind_speed : Option Int
  pressure : Option Rat
  deriving DecidableEq, Repr

/-- `DigiWXStation.parse_current(s)`: split on `,` and build the dict.  The
dict-literal entries are evaluated in source order, so the first consumed
index that is out of range raises `IndexError` (`parse_int`/`parse_float`
themselves never raise). -/
def parse_current (s : String) : Except PyErr Data := do
  let parts := pySplitComma s
  let t1 ← pyIndex parts 1
  let t21 ← pyIndex parts 21
  let t3 ← pyIndex parts 3
  let t4 ← pyIndex parts 4
  let t5 ← pyIndex parts 5
  let t8 ← pyIndex parts 8
  pure { temperature := parse_int t1
         dewpoint := parse_int t21
         humidity := parse_int t3
         wind_dir := parse_int t4
         wind_speed := parse_int t5
         pressure := parse_float t8 }

/-- A Python number as stored in the parse dictionary / observation packet:
`int` or `float`. -/
inductive PyNum where
  | int (n : Int)
  | float (q : Rat)
  deriving DecidableEq, Repr

/-- The key set of the dictionary returned by `parse_current`. -/
def dataKeys : List String :=
  ["temperature", "dewpoint", "humidity", "wind_dir", "wind_speed", "pressure"]

/-- `data.get(k)` on a `parse_current` dictionary: the stored value for a
present key (which may itself be `None`), `None` for a missing key. -/
def Data.get (d : Data) (k : String) : Option PyNum :=
  if k = "temperature" then d.temperature.map .int
  else if k = "dewpoint" then d.dewpoint.map .int
  else if k = "humidity" then d.humidity.map .int
  else if k = "wind_dir" then d.wind_dir.map .int
  else if k = "wind_speed" then d.wind_speed.map .int
  else if k = "pressure" then d.pressure.map .float
  else none

/-- `data[k]` on a `parse_current` dictionary: the stored value for a
present key, `KeyError` for a missing key. -/
def Data.getItem (d : Data) (k : String) : Except PyErr (Option PyNum) :=
  if k ∈ dataKeys then .ok (d.get k) else .error (.keyError k)

/-- `weewx.US`, the host engine's United States unit-system tag (external
constant; its exact value is irrelevant to the claims). -/
def weewx_US : Nat := 1

/-- The observation packet dictionary built by `DigiWXDriver._data_to_packet`. -/
structure Packet where
  dateTime : Int
  usUnits : Nat
  windDir : Option PyNum
  windSpeed : Option PyNum
  inTemp : Option PyNum
  outTemp : Option PyNum
  outHumidity : Option PyNum
  pressure : Option PyNum
  rain : Option Rat
  deriving DecidableEq, Repr

/-- `DigiWXDriver._data_to_packet(data)`.  `now` models `int(time.time()+0.5)`
and `calculate_rain` the external `weewx.wxformulas.calculate_rain` helper.
The dict-literal entries before `rain` are effect-free lookups via
`data.get`; the `rain` entry evaluates `data['rain_total']`, which raises
`KeyError` when the key is missing, before the packet dictionary exists.
On success the pair also carries the updated `self.last_rain`
(`data['rain_total']`), which is assigned after the dict is built. -/
def data_to_packet (now : Int)
    (calculate_rain : Option PyNum → Option PyNum → Option Rat)
    (data : Data) (last_rain : Option PyNum) :
    Except PyErr (Packet × Option PyNum) :=
  match data.getItem "rain_total" with
  | .error e => .error e
  | .ok rt =>
    .ok ({ dateTime := now
           usUnits := weewx_US
           windDir := data.get "wind_dir"
           windSpeed := data.get "wind_speed"
           inTemp := data.get "temperature_in"
           outTemp := data.get "temperature_out"
           outHumidity := data.get "humidity"
           pressure := data.get "pressure"
           rain := calculate_rain rt last_rain }, rt)

/-- `DigiWXStation.DEFAULT_PORT`. -/
def DEFAULT_PORT : String := "/dev/ttyS0"

/-- The instance state a `DigiWXStation` would hold after a successful
`__init__`: the attributes assigned there, with `serial_port` an abstract
transport handle (`none` when closed). -/
structure DigiWXStationState where
  port : String
  baudrate : Nat
  timeout : Nat
  max_tries : Int
  retry_wait : Int
  serial_port : Option Nat
  deriving DecidableEq, Repr

/-- The local names bound in the scope of `DigiWXStation.__init__`: its
parameters.  No other local binding precedes the reads of `max_tries` and
`retry_wait`. -/
def initLocalNames : List String := ["self", "port"]

/-- Every name bound at module scope of digiwx.py: the `__future__` feature
names, the imports, the module constants and functions, the
logging-backend bindings of both the `try` and the `except` branch, the
three classes, and the names bound only in the `__main__` block. -/
def digiwxModuleNames : List String :=
  ["with_statement", "print_function", "serial", "syslog", "time", "weewx",
   "calculate_rain", "DRIVER_NAME", "DRIVER_VERSION", "loader",
   "confeditor_loader", "logging", "log", "logmsg", "logdbg", "loginf",
   "logerr", "DigiWXConfigurationEditor", "DigiWXDriver", "DigiWXStation",
   "optparse", "usage", "parser", "options", "args"]

/-- Python name resolution for a plain name read inside
`DigiWXStation.__init__`: local scope, then module scope, then the builtins
scope (`builtins`, passed as an abstract environment).  Local and module
names resolve to a bound value; the represented value `0` is a placeholder,
immaterial to the claims because neither scope binds `max_tries` or
`retry_wait`. -/
def initLookup (builtins : String → Option Int) (n : String) : Option Int :=
  if n ∈ initLocalNames then some 0
  else if n ∈ digiwxModuleNames then some 0
  else builtins n

/-- `DigiWXStation.__init__(self, port)`: assigns `self.port = port`,
`self.baudrate = 19200`, `self.timeout = 3` (no name reads that can fail),
then `self.max_tries = max_tries` and `self.retry_wait = retry_wait`, which
read the plain names `max_tries` and `retry_wait`; an unresolvable name
raises `NameError`.  Finally `self.serial_port = None`. -/
def stationInit (builtins : String → Option Int) (port : String) :
    Except PyErr DigiWXStationState :=
  match initLookup builtins "max_tries" with
  | none => .error (.nameError "max_tries")
  | some mt =>
    match initLookup builtins "retry_wait" with
    | none => .error (.nameError "retry_wait")
    | some rw => .ok ⟨port, 19200, 3, mt, rw, none⟩

/-- The instance state a `DigiWXDriver` would hold after a successful
`__init__`. -/
structure DriverState where
  model : String
  last_rain : Option PyNum
  station : DigiWXStationState
  deriving Repr

/-- `DigiWXDriver.__init__(self, **stn_dict)`: logs, reads `model` and
`port` from `stn_dict` with defaults, sets `self.last_rain = None`, then
constructs `DigiWXStation(port)` (whose `__init__` may raise, propagating
unhandled) and calls `self._station.open()` (modelled by the abstract
`openPort`, since `serial.Serial` is external). -/
def driverInit (builtins : String → Option Int)
    (openPort : String → Except PyErr Nat)
    (stn_dict : String → Option String) : Except PyErr DriverState :=
  let model := (stn_dict "model").getD "WRL"
  let port := (stn_dict "port").getD DEFAULT_PORT
  match stationInit builtins port with
  | .error e => .error e
  | .ok st =>
    match openPort port with
    | .error e => .error e
    | .ok h => .ok ⟨model, none, { st with serial_port := some h }⟩

/-- `DigiWXStation.close(self)`: if `self.serial_port is not None`, close
the underlying handle (`hwClose`, external and possibly failing) and set
`self.serial_port = None`; otherwise do nothing.  When the connection is
already closed no external call is made at all. -/
def close (hwClose : Nat → Except PyErr Unit) (st : DigiWXStationState) :
    Except PyErr DigiWXStationState :=
  match st.serial_port with
  | none => .ok st
  | some h =>
    match hwClose h with
    | .error e => .error e
    | .ok _ => .ok { st with serial_port := none }

/-- The exceptions caught by `get_data_with_retry`'s `except` clause:
`serial.serialutil.SerialException` and `weewx.WeeWxIOError`. -/
inductive TransportErr where
  | serialException (msg : String)
  | weewxIOError (msg : String)
  deriving DecidableEq, Repr

/-- Observable trace of one `get_data_with_retry` call: its outcome, how
many `get_data` read attempts were made, and how many `time.sleep`
delays were performed. -/
structure RetryTrace where
  result : Except PyErr String
  attempts : Nat
  sleeps : Nat
  deriving DecidableEq, Repr

/-- The `for ntries in range(0, self.max_tries)` loop of
`get_data_with_retry`, with `fuel` the remaining iterations and `reads`
giving the outcome of the read attempt of each iteration.  A successful
`get_data` returns its buffer immediately; a caught transport exception
logs at info severity and sleeps `retry_wait` (counted), then continues.
When the loop completes without returning, the `for`/`else` clause runs:
it evaluates `self._max_tries` while formatting the message, and since no
attribute of that name exists (the attribute is `max_tries`), this raises
`AttributeError` — the subsequent `logerr` and
`raise weewx.RetriesExceeded(msg)` lines are never reached (nor is the
unbound name `cmd` evaluated, `self._max_tries` failing first). -/
def retryFrom (reads : Nat → Except TransportErr String) :
    Nat → Nat → RetryTrace
  | _, 0 => ⟨.error (.attributeError "_max_tries"), 0, 0⟩
  | ntries, fuel + 1 =>
    match reads ntries with
    | .ok buf => ⟨.ok buf, 1, 0⟩
    | .error _ =>
        let r := retryFrom reads (ntries + 1) fuel
        ⟨r.result, r.attempts + 1, r.sleeps + 1⟩

/-- `DigiWXStation.get_data_with_retry(self)` with `max_tries` the value of
`self.max_tries`. -/
def get_data_with_retry (max_tries : Nat)
    (reads : Nat → Except TransportErr String) : RetryTrace :=
  retryFrom reads 0 max_tries

/-- A call of the static method `DigiWXStation.parse_current` seen from an
instance-holding caller: the method receives no instance state and mutates
none, so the call pairs the unchanged state with the parse result. -/
def parse_current_call (st : DigiWXStationState) (s : String) :
    DigiWXStationState × Except PyErr Data :=
  (st, parse_current s)

/-- The second full sample line of the module docstring, the one whose
field table the docstring documents: 53 comma-separated fields, with the
prefix `DW,-004,-013,053,290,000,999,999,30.07,` and the longitude
hemisphere letter `W` at index 21. -/
def sampleLine : String :=
  "DW,-004,-013,053,290,000,999,999,30.07,+99999,+04200,004,000,001,000,000,44,04.22,N,068,49.10,W,ME55 ,VINALHAVEN,122.7000,00,U,000,999,999,+024,+009,10,NA,NA,000000,159,01024,00,0,99999,99999,99999,0,CLR,999,CLR,999,CLR,999,CLR,999,77"

/-- A minimal line with exactly 22 comma-separated tokens, every consumed
index holding a numeric token. -/
def shortLine22 : String :=
  "DW,1,2,3,4,5,6,7,8.5,9,10,11,12,13,14,15,16,17,18,19,20,21"

/-- A transport on which every read attempt fails with a caught fault. -/
def allFailReads : Nat → Except TransportErr String :=
  fun _ => .error (.serialException "device disconnected during read")

/-- A transport that fails on the first two read attempts and succeeds
from the third attempt on. -/
def failTwiceReads : Nat → Except TransportErr String
  | 0 => .error (.serialException "device disconnected during read")
  | 1 => .error (.weewxIOError "no data received")
  | _ => .ok sampleLine

/-- Indexing within bounds returns the element. -/
theorem pyIndex_ok {α : Type} (l : List α) (i : Nat) (d : α) (h : i < l.length) :
    pyIndex l i = .ok (l.getD i d) := by
  simp [pyIndex, List.getD_eq_getElem?_getD, List.get?_eq_getElem?,
    List.getElem?_eq_getElem h]

/-- Indexing out of bounds raises `IndexError`. -/
theorem pyIndex_err {α : Type} (l : List α) (i : Nat) (h : l.length ≤ i) :
    pyIndex l i = .error .indexError := by
  simp [pyIndex, List.get?_eq_getElem?, List.getElem?_eq_none h]

/-- On a line with at least 22 comma-separated tokens, `parse_current`
succeeds and each field of the result is exactly the numeric parse of the
token at its consumed index. -/
theorem parse_current_of_le_length {s : String}
    (h : 22 ≤ (pySplitComma s).length) :
    parse_current s = .ok
      { temperature := parse_int ((pySplitComma s).getD 1 "")
        dewpoint := parse_int ((pySplitComma s).getD 21 "")
        humidity := parse_int ((pySplitComma s).getD 3 "")
        wind_dir := parse_int ((pySplitComma s).getD 4 "")
        wind_speed := parse_int ((pySplitComma s).getD 5 "")
        pressure := parse_float ((pySplitComma s).getD 8 "") } := by
  rw [parse_current]
  rw [pyIndex_ok _ 1 "" (by omega), pyIndex_ok _ 21 "" (by omega),
    pyIndex_ok _ 3 "" (by omega), pyIndex_ok _ 4 "" (by omega),
    pyIndex_ok _ 5 "" (by omega), pyIndex_ok _ 8 "" (by omega)]
  rfl

/-- On a line with fewer than 22 comma-separated tokens, `parse_current`
raises `IndexError`: either index 1 is already out of range, or index 21
is (the dewpoint entry, evaluated second in the dict literal). -/
theorem parse_current_short {s : String}
    (h : (pySplitComma s).length < 22) :
    parse_current s = .error .indexError := by
  rw [parse_current]
  by_cases h1 : 1 < (pySplitComma s).length
  · rw [pyIndex_ok _ 1 "" h1, pyIndex_err _ 21 (by omega)]
    rfl
  · rw [pyIndex_err _ 1 (by omega)]
    rfl

/-- C1, counterexample.  The claim says `parse_current` is total and that a
line with fewer tokens than a consumed index yields absent fields with no
hard error.  On the one-token line `"DW"` the access `parts[1]` raises
`IndexError`: the whole record fails hard, refuting the claim. -/
theorem digiwx_C1_counterexample :
    parse_current "DW" = .error .indexError := rfl

/-- C1, amended.  `parse_current` is total only on lines with at least 22
comma-separated tokens, where it returns a record; on a line with fewer
than 22 tokens the first consumed out-of-range index raises `IndexError`,
a hard error for the whole record — out-of-range indices are never
treated as absent fields. -/
theorem digiwx_C1_amended_total_only_with_enough_tokens (s : String) :
    (22 ≤ (pySplitComma s).length → ∃ r, parse_current s = .ok r) ∧
    ((pySplitComma s).length < 22 → parse_current s = .error .indexError) :=
  ⟨fun h => ⟨_, parse_current_of_le_length h⟩, fun h => parse_current_short h⟩

/-- C1, witness: the amended theorem applied to a 22-token line and to the
2-token line `"DW,1"`. -/
theorem digiwx_C1_amended_witness :
    (∃ r, parse_current shortLine22 = .ok r) ∧
    parse_current "DW,1" = .error .indexError :=
  ⟨(digiwx_C1_amended_total_only_with_enough_tokens shortLine22).1 (by decide),
   (digiwx_C1_amended_total_only_with_enough_tokens "DW,1").2 (by decide)⟩

/-- C2.  For every builtins environment that does not bind the name
`max_tries` (as in CPython), every port argument, every keyword dictionary
and every outcome of the serial open, `DigiWXStation.__init__` raises
`NameError` on the unbound name `max_tries` (read by the assignment
`self.max_tries = max_tries`, the name being bound neither locally nor at
module scope), so no `DigiWXStation` is ever constructed; consequently
`DigiWXDriver.__init__`, which constructs one, raises the same unhandled
`NameError` and no `DigiWXDriver` is ever constructed either. -/
theorem digiwx_C2_init_always_name_error :
    ∀ (builtins : String → Option Int) (port : String)
      (stn_dict : String → Option String) (openPort : String → Except PyErr Nat),
      builtins "max_tries" = none →
      stationInit builtins port = .error (.nameError "max_tries") ∧
      driverInit builtins openPort stn_dict = .error (.nameError "max_tries") := by
  intro b port sd op hb
  have h1 : "max_tries" ∉ initLocalNames := by decide
  have h2 : "max_tries" ∉ digiwxModuleNames := by decide
  have hl : initLookup b "max_tries" = none := by
    simp [initLookup, h1, h2, hb]
  refine ⟨?_, ?_⟩
  · rw [stationInit, hl]
  · rw [driverInit]
    rw [stationInit, hl]

/-- C2, witness: an empty builtins environment, the default port, an empty
keyword dictionary and an always-succeeding serial open. -/
theorem digiwx_C2_witness :
    stationInit (fun _ => none) "/dev/ttyS0" = .error (.nameError "max_tries") ∧
    driverInit (fun _ => none) (fun _ => .ok 0) (fun _ => none) =
      .error (.nameError "max_tries") :=
  digiwx_C2_init_always_name_error (fun _ => none) "/dev/ttyS0"
    (fun _ => none) (fun _ => .ok 0) rfl

/-- C3, code-bug evaluation at the failing input.  With `max_tries = 3`
and a transport failing on every attempt, `get_data_with_retry` does not
raise `weewx.RetriesExceeded` and performs no error-severity log: the
`for`/`else` clause evaluates `self._max_tries` while formatting the
message and raises `AttributeError` first (the attribute is named
`max_tries`), so the `logerr` and `raise weewx.RetriesExceeded(msg)` lines
are unreachable. -/
theorem digiwx_C3_attribute_error_not_retries_exceeded :
    get_data_with_retry 3 allFailReads =
      ⟨.error (.attributeError "_max_tries"), 3, 3⟩ ∧
    ∀ msg, (get_data_with_retry 3 allFailReads).result ≠
      .error (.retriesExceeded msg) := by
  refine ⟨rfl, ?_⟩
  intro msg h
  simp [get_data_with_retry, retryFrom, allFailReads] at h

/-- C4, code-bug evaluation.  For every measurement record of the shape
`parse_current` produces — the key set `temperature`, `dewpoint`,
`humidity`, `wind_dir`, `wind_speed`, `pressure` — and every timestamp,
rain helper and previous rain total, `_data_to_packet` raises
`KeyError` on `data['rain_total']` instead of returning a packet: the
parser never emits a `rain_total` key (nor the `temperature_in` and
`temperature_out` keys the packet reads via `get`). -/
theorem digiwx_C4_packet_always_key_error :
    ∀ (now : Int) (calculate_rain : Option PyNum → Option PyNum → Option Rat)
      (r : Data) (last_rain : Option PyNum),
      data_to_packet now calculate_rain r last_rain =
        .error (.keyError "rain_total") := by
  intro now cr r lr
  have h : "rain_total" ∉ dataKeys := by decide
  rw [data_to_packet, Data.getItem, if_neg h]

/-- C5, counterexample.  The claim says that with `max_tries = 3` and a
transport failing on all 3 attempts exactly 2 delay sleeps are performed;
the code sleeps after every caught failure, the final one included, so 3
sleeps are performed. -/
theorem digiwx_C5_counterexample :
    (get_data_with_retry 3 allFailReads).attempts = 3 ∧
    (get_data_with_retry 3 allFailReads).sleeps ≠ 2 := by decide

/-- C5, amended.  With `max_tries = 3`: if the transport read fails twice
and then succeeds, the call returns that successful read after 3 attempts
and exactly 2 delay sleeps; if the read fails on all 3 attempts, the call
makes exactly 3 attempts and performs exactly 3 delay sleeps (one after
every failed attempt, the final one included) before raising. -/
theorem digiwx_C5_amended_sleep_after_every_failure :
    (∀ (reads : Nat → Except TransportErr String) (e₀ e₁ : TransportErr) (buf : String),
        reads 0 = .error e₀ → reads 1 = .error e₁ → reads 2 = .ok buf →
        get_data_with_retry 3 reads = ⟨.ok buf, 3, 2⟩) ∧
    (∀ (reads : Nat → Except TransportErr String),
        (∀ i, i < 3 → ∃ e, reads i = .error e) →
        get_data_with_retry 3 reads =
          ⟨.error (.attributeError "_max_tries"), 3, 3⟩) := by
  constructor
  · intro reads e₀ e₁ buf h0 h1 h2
    simp [get_data_with_retry, retryFrom, h0, h1, h2]
  · intro reads h
    obtain ⟨f0, h0⟩ := h 0 (by omega)
    obtain ⟨f1, h1⟩ := h 1 (by omega)
    obtain ⟨f2, h2⟩ := h 2 (by omega)
    simp [get_data_with_retry, retryFrom, h0, h1, h2]

/-- C5, witness: the amended theorem applied to a fail-fail-succeed
transport and to an all-fail transport. -/
theorem digiwx_C5_amended_witness :
    get_data_with_retry 3 failTwiceReads = ⟨.ok sampleLine, 3, 2⟩ ∧
    get_data_with_retry 3 allFailReads =
      ⟨.error (.attributeError "_max_tries"), 3, 3⟩ :=
  ⟨digiwx_C5_amended_sleep_after_every_failure.1 failTwiceReads _ _ sampleLine
      rfl rfl rfl,
   digiwx_C5_amended_sleep_after_every_failure.2 allFailReads
      (fun _ _ => ⟨.serialException "device disconnected during read", rfl⟩)⟩

/-- C6.  On every raw line with at least 22 comma-separated tokens,
`parse_current` succeeds and each consumed field equals exactly the
per-field numeric parse of its own token (integer parse at indices 1, 21,
3, 4, 5; float parse at index 8).  Hence a field is absent if and only if
its token fails that parse, and the fields are independent: each is a
function of its own token alone, so a failure at one consumed index never
changes the result at any other. -/
theorem digiwx_C6_fields_independent (s : String)
    (h : 22 ≤ (pySplitComma s).length) :
    parse_current s = .ok
      { temperature := parse_int ((pySplitComma s).getD 1 "")
        dewpoint := parse_int ((pySplitComma s).getD 21 "")
        humidity := parse_int ((pySplitComma s).getD 3 "")
        wind_dir := parse_int ((pySplitComma s).getD 4 "")
        wind_speed := parse_int ((pySplitComma s).getD 5 "")
        pressure := parse_float ((pySplitComma s).getD 8 "") } :=
  parse_current_of_le_length h

/-- C6, witness: the theorem applied to a concrete 22-token line, with the
per-token parses evaluated. -/
theorem digiwx_C6_witness :
    parse_current shortLine22 =
      .ok { temperature := some 1, dewpoint := some 21, humidity := some 3,
            wind_dir := some 4, wind_speed := some 5, pressure := some (17/2) } :=
  (digiwx_C6_fields_independent shortLine22 (by decide)).trans
    (by with_unfolding_all rfl)

/-- C7.  For every line of the documented 53-field format whose index-21
token is the longitude hemisphere letter `W` — the index-2 token, where
the hardware emits dewpoint, being arbitrary — `parse_current` succeeds
and its dewpoint field is absent: the parser reads index 21, whose letter
fails the integer parse, and the result never depends on index 2. -/
theorem digiwx_C7_dewpoint_always_absent (s : String)
    (hlen : (pySplitComma s).length = 53)
    (h21 : (pySplitComma s).getD 21 "" = "W") :
    ∃ r, parse_current s = .ok r ∧ r.dewpoint = none := by
  refine ⟨_, parse_current_of_le_length (by omega), ?_⟩
  simp only [h21]
  decide

/-- C7, witness: the theorem applied to the documented 53-field sample
line. -/
theorem digiwx_C7_witness :
    ∃ r, parse_current sampleLine = .ok r ∧ r.dewpoint = none :=
  digiwx_C7_dewpoint_always_absent sampleLine (by decide) (by decide)

/-- C8.  Parsing the documented sample line beginning
`DW,-004,-013,053,290,000,999,999,30.07,` with the remaining documented
trailing fields present yields temperature -4, humidity 53, wind
direction 290, wind speed 0, pressure 30.07, and dewpoint equal to the
numeric parse of the index-21 token `W`, which fails, hence absent. -/
theorem digiwx_C8_sample_line :
    parse_current sampleLine =
      .ok { temperature := some (-4), dewpoint := none, humidity := some 53,
            wind_dir := some 290, wind_speed := some 0,
            pressure := some (3007/100) } := by
  with_unfolding_all rfl

/-- C9.  `parse_current` is deterministic: a call of the static method on
any two instance states yields the same result for the same input line,
and the call leaves the state unchanged — the result depends only on the
input line. -/
theorem digiwx_C9_parse_deterministic :
    ∀ (st₁ st₂ : DigiWXStationState) (s : String),
      (parse_current_call st₁ s).2 = (parse_current_call st₂ s).2 ∧
      (parse_current_call st₁ s).1 = st₁ :=
  fun _ _ _ => ⟨rfl, rfl⟩

/-- C10.  `close` on an already-closed connection (serial_port `None`)
raises no error and leaves the station state unchanged, whatever the
behaviour of the underlying transport close — which is not invoked at
all — and a `close` that succeeded followed by another `close` has the
same effect on the station state as the single `close`. -/
theorem digiwx_C10_close_idempotent :
    ∀ (hwClose : Nat → Except PyErr Unit) (st : DigiWXStationState),
      (st.serial_port = none → close hwClose st = .ok st) ∧
      (∀ st', close hwClose st = .ok st' → close hwClose st' = .ok st') := by
  intro hw st
  have hclosed : ∀ u : DigiWXStationState, u.serial_port = none →
      close hw u = .ok u := by
    intro u hu
    rw [close, hu]
  refine ⟨hclosed st, ?_⟩
  intro st' h
  rcases hsp : st.serial_port with _ | hdl
  · rw [hclosed st hsp] at h
    cases h
    exact hclosed st hsp
  · have hcl : close hw st =
        match hw hdl with
        | .error e => .error e
        | .ok _ => .ok { st with serial_port := none } := by
      rw [close, hsp]
    rw [hcl] at h
    cases hhw : hw hdl with
    | error e => rw [hhw] at h; cases h
    | ok u =>
        rw [hhw] at h
        cases h
        exact hclosed _ rfl

/-- C10, witness: the theorem applied to an open station whose close
succeeds; the resulting closed station closes again without change. -/
theorem digiwx_C10_witness :
    close (fun _ => .ok ()) ⟨"/dev/ttyS0", 19200, 3, 3, 5, none⟩ =
      .ok ⟨"/dev/ttyS0", 19200, 3, 3, 5, none⟩ :=
  (digiwx_C10_close_idempotent (fun _ => .ok ())
      ⟨"/dev/ttyS0", 19200, 3, 3, 5, some 7⟩).2
    ⟨"/dev/ttyS0", 19200, 3, 3, 5, none⟩ rfl

end Digiwx
